import Mathlib

/-!
Shallow embedding of `iotkitclient/device.py` (class `Device`) from the
oisp-sdk-python repository, together with theorems checking the
natural-language specification of the device-resource client against it.

Modelling conventions:
* Python/JSON values are modelled by `PyVal` (`None`, numbers, strings,
  lists, dicts).  Python truthiness is `pyTruthy`.
* `datetime` objects are modelled as rational seconds since the Unix epoch;
  `datetime.fromtimestamp x` denotes the instant `x`.
* The transport client and the `Account` class are not under `src/`; the
  parts of them the device code uses are modelled from the spec and marked
  as such in their doc comments.
* Each remote operation is embedded as a pure function that takes the
  device state, the arguments, and the server `Response`, and returns the
  `Request` the code sends together with the operation's result
  (`Except PyErr _`), mirroring the single synchronous call the code makes.
* `uuid.uuid4()` is nondeterministic; the generated value is passed in as
  an explicit `freshUuid` argument.
-/

/-- Python/JSON value as a shallow embedding: None, number, string, list,
or string-keyed dict (an association list, preserving insertion order as
Python dicts do). -/
inductive PyVal where
  | none
  | num (q : ℚ)
  | str (s : String)
  | list (xs : List PyVal)
  | dict (kvs : List (String × PyVal))

mutual

/-- Decidable structural equality on `PyVal`, modelling Python `==` on
JSON-like values. -/
def PyVal.deq : (a b : PyVal) → Decidable (a = b)
  | .none, .none => isTrue rfl
  | .num a, .num b =>
    match decEq a b with
    | isTrue h => isTrue (by rw [h])
    | isFalse h => isFalse (by intro hh; injection hh; contradiction)
  | .str a, .str b =>
    match decEq a b with
    | isTrue h => isTrue (by rw [h])
    | isFalse h => isFalse (by intro hh; injection hh; contradiction)
  | .list xs, .list ys =>
    match PyVal.deqList xs ys with
    | isTrue h => isTrue (by rw [h])
    | isFalse h => isFalse (by intro hh; injection hh; contradiction)
  | .dict xs, .dict ys =>
    match PyVal.deqDict xs ys with
    | isTrue h => isTrue (by rw [h])
    | isFalse h => isFalse (by intro hh; injection hh; contradiction)
  | .none, .num _ => isFalse (by intro hh; injection hh)
  | .none, .str _ => isFalse (by intro hh; injection hh)
  | .none, .list _ => isFalse (by intro hh; injection hh)
  | .none, .dict _ => isFalse (by intro hh; injection hh)
  | .num _, .none => isFalse (by intro hh; injection hh)
  | .num _, .str _ => isFalse (by intro hh; injection hh)
  | .num _, .list _ => isFalse (by intro hh; injection hh)
  | .num _, .dict _ => isFalse (by intro hh; injection hh)
  | .str _, .none => isFalse (by intro hh; injection hh)
  | .str _, .num _ => isFalse (by intro hh; injection hh)
  | .str _, .list _ => isFalse (by intro hh; injection hh)
  | .str _, .dict _ => isFalse (by intro hh; injection hh)
  | .list _, .none => isFalse (by intro hh; injection hh)
  | .list _, .num _ => isFalse (by intro hh; injection hh)
  | .list _, .str _ => isFalse (by intro hh; injection hh)
  | .list _, .dict _ => isFalse (by intro hh; injection hh)
  | .dict _, .none => isFalse (by intro hh; injection hh)
  | .dict _, .num _ => isFalse (by intro hh; injection hh)
  | .dict _, .str _ => isFalse (by intro hh; injection hh)
  | .dict _, .list _ => isFalse (by intro hh; injection hh)

/-- Elementwise decidable equality for lists of `PyVal`. -/
def PyVal.deqList : (xs ys : List PyVal) → Decidable (xs = ys)
  | [], [] => isTrue rfl
  | x :: xs, y :: ys =>
    match PyVal.deq x y, PyVal.deqList xs ys with
    | isTrue h1, isTrue h2 => isTrue (by rw [h1, h2])
    | isFalse h1, _ => isFalse (by intro hh; injection hh; contradiction)
    | _, isFalse h2 => isFalse (by intro hh; injection hh; contradiction)
  | [], _ :: _ => isFalse (by intro hh; injection hh)
  | _ :: _, [] => isFalse (by intro hh; injection hh)

/-- Entrywise decidable equality for dict entry lists. -/
def PyVal.deqDict : (xs ys : List (String × PyVal)) → Decidable (xs = ys)
  | [], [] => isTrue rfl
  | (k, v) :: xs, (l, w) :: ys =>
    match decEq k l, PyVal.deq v w, PyVal.deqDict xs ys with
    | isTrue h1, isTrue h2, isTrue h3 => isTrue (by rw [h1, h2, h3])
    | isFalse h1, _, _ =>
      isFalse (by intro hh; injection hh with hp ht; injection hp; contradiction)
    | _, isFalse h2, _ =>
      isFalse (by intro hh; injection hh with hp ht; injection hp; contradiction)
    | _, _, isFalse h3 => isFalse (by intro hh; injection hh; contradiction)
  | [], _ :: _ => isFalse (by intro hh; injection hh)
  | _ :: _, [] => isFalse (by intro hh; injection hh)

end

instance : DecidableEq PyVal := PyVal.deq

/-- Python truthiness (`bool(v)`) for the modelled values: `None`, `0`,
the empty string, the empty list and the empty dict are falsy, everything
else is truthy. -/
def pyTruthy : PyVal → Bool
  | .none => false
  | .num q => if q = 0 then false else true
  | .str s => s ≠ ""
  | .list xs => !xs.isEmpty
  | .dict kvs => !kvs.isEmpty

/-- Rendering of a value by Python string formatting (`"{}".format(v)`).
Exact on strings (formatted verbatim) and on `None`; collections and
numbers get a placeholder rendering — every claim formats only strings,
where this is exact. -/
def pystr : PyVal → String
  | .none => "None"
  | .num q => toString q
  | .str s => s
  | .list _ => "[...]"
  | .dict _ => "\x7b...\x7d"

/-- Lookup in a dict-like association list, as Python `dict.get(k)`:
the first value bound to `k`, or `None` when the key is absent. -/
def pyGet (kvs : List (String × PyVal)) (k : String) : PyVal :=
  match kvs.lookup k with
  | Option.some v => v
  | Option.none => PyVal.none

/-- Errors the embedded code can raise: `TypeError` (from `None / 1e3` in
the constructor) and the client's `UnexpectedResponseError`, which carries
the observed status code and response body. -/
inductive PyErr where
  | typeError (msg : String)
  | unexpectedResponse (status : Nat) (body : List (String × PyVal))

/-- HTTP method of a remote call made by the device code. -/
inductive Method where
  | get
  | put
  | post
  | delete

/-- Response from the server: status code and JSON body (`response.json()`
yields the body; the endpoints used here return JSON objects). -/
structure Response where
  statusCode : Nat
  body : List (String × PyVal)

/-- Request as handed to the transport client: method, path, optional JSON
payload, and the expected status code passed via `expect=`. -/
structure Request where
  method : Method
  path : String
  data : Option (List (String × PyVal))
  expect : Nat

/-- Opaque handle for the authenticated transport client object; the device
code only stores and forwards it. -/
structure Client where
  id : String

/-- Modelled from the spec: the transport client class is not under `src/`.
Per the spec, each call carries an `expect` contract and a status code
outside the expected one is the sole failure signal, raised as
`UnexpectedResponseError` carrying the observed status and body. -/
def Client.check (expect : Nat) (resp : Response) : Except PyErr Unit :=
  if resp.statusCode = expect then Except.ok ()
  else Except.error (PyErr.unexpectedResponse resp.statusCode resp.body)

/-- Modelled from the spec: the `Account` class is not under `src/`.  The
device code uses from it: `account_id` (interpolated into the resource
path), `client` (the authenticated transport handle), and
`get_activation_code()` (an external collaborator call whose returned code
is modelled by the `activationCode` field). -/
structure Account where
  account_id : String
  client : Client
  activationCode : PyVal

/-- Modelled from the spec: `Device.__eq__` compares the stored account
objects; the `Account` class is not under `src/`, and the spec fixes the
device identity triple as `(name, accountId, deviceId)`, so account
comparison is modelled as `accountId` equality. -/
def accountEq (a b : Account) : Bool := a.account_id == b.account_id

/-- Argument accepted for `created_on` by the constructor: either an
already-parsed `datetime` (rational seconds since the epoch) or a raw
Python value (a number in epoch-milliseconds, or anything else, e.g.
`None` from a JSON dict missing the key). -/
inductive InitTime where
  | datetime (secs : ℚ)
  | val (v : PyVal)

/-- Embeds the constructor lines
`if not isinstance(created_on, datetime): created_on = datetime.fromtimestamp(created_on / 1e3)`:
a `datetime` is kept unchanged; a number is divided by 1000 and converted;
any other value (in particular `None`) makes the division raise
`TypeError`. -/
def normalizeCreated : InitTime → Except PyErr ℚ
  | .datetime t => Except.ok t
  | .val (.num q) => Except.ok (q / 1000)
  | .val _ => Except.error (PyErr.typeError "unsupported operand type for /")

/-- State of a `Device` object.  `loc`, `tags` and `attributes` are not set
by the constructor; they are instance attributes added dynamically by
`self.__dict__.update(payload)` in `set_properties`, modelled as `Option`
fields that are `none` until such an update sets them. -/
structure Device where
  account : Account
  client : Client
  device_id : PyVal
  name : PyVal
  status : PyVal
  gateway_id : PyVal
  domain_id : PyVal
  created_on : ℚ
  url : String
  loc : Option PyVal
  tags : Option PyVal
  attributes : Option PyVal

/-- Embeds `Device.__init__`: stores the account and its client, the given
fields, the normalized `created_on`, and the resource path
`"/accounts/{}/devices/{}".format(account.account_id, device_id)`.
Fails (with the `TypeError` from `normalizeCreated`) only on a bad
`created_on`. -/
def Device.init (account : Account) (device_id name status gateway_id domain_id : PyVal)
    (created_on : InitTime) : Except PyErr Device :=
  match normalizeCreated created_on with
  | Except.error e => Except.error e
  | Except.ok t =>
    Except.ok
      ⟨account, account.client, device_id, name, status, gateway_id, domain_id, t,
        "/accounts/" ++ account.account_id ++ "/devices/" ++ pystr device_id,
        Option.none, Option.none, Option.none⟩

/-- Embeds `Device.from_json`: builds a device from a JSON dict via
`json_dict.get` on the keys `deviceId, name, status, gatewayId, domainId,
created` (each `None` when absent). -/
def Device.from_json (account : Account) (json_dict : List (String × PyVal)) :
    Except PyErr Device :=
  Device.init account (pyGet json_dict "deviceId") (pyGet json_dict "name")
    (pyGet json_dict "status") (pyGet json_dict "gatewayId")
    (pyGet json_dict "domainId") (InitTime.val (pyGet json_dict "created"))

/-- A Python value as seen by `__eq__`: either another `Device` or some
non-device value. -/
inductive PyObj where
  | device (d : Device)
  | obj (v : PyVal)

/-- Result of Python `__eq__`: a boolean, or `NotImplemented` for values
the method does not compare against. -/
inductive EqResult where
  | boolean (b : Bool)
  | notImplemented

/-- Embeds `Device.__eq__`: `NotImplemented` unless the other value is a
`Device`, otherwise tuple comparison of `(name, account, device_id)`
(account comparison per `accountEq`). -/
def Device.eq (d : Device) (o : PyObj) : EqResult :=
  match o with
  | .obj _ => EqResult.notImplemented
  | .device e =>
    EqResult.boolean
      (decide (d.name = e.name) && accountEq d.account e.account &&
        decide (d.device_id = e.device_id))

/-- Embeds `Device.delete`: `self.client.delete(self.url, expect=204)`. -/
def Device.delete (d : Device) (resp : Response) : Request × Except PyErr Unit :=
  (⟨Method.delete, d.url, Option.none, 204⟩, Client.check 204 resp)

/-- Embeds `Device.activate`: when `activation_code is None` it is fetched
from the account; then `PUT` to `self.url + "/activation"` with payload
`{"activationCode": activation_code}` and `expect=200`; on success returns
`response.json().get("deviceToken")`. -/
def Device.activate (d : Device) (activation_code : PyVal) (resp : Response) :
    Request × Except PyErr PyVal :=
  let code :=
    match activation_code with
    | PyVal.none => d.account.activationCode
    | c => c
  let req : Request := ⟨Method.put, d.url ++ "/activation",
    Option.some [("activationCode", code)], 200⟩
  (req, (Client.check 200 resp).map (fun _ => pyGet resp.body "deviceToken"))

/-- Embeds `self.__dict__.update(payload)` for one payload entry.  The
payload keys of `set_properties` are always among the five parameter
names, so only those keys can occur: `gateway_id` and `name` overwrite
existing fields, `loc`, `tags` and `attributes` set the dynamically added
attributes. -/
def applyProp (d : Device) (kv : String × PyVal) : Device :=
  if kv.1 = "gateway_id" then { d with gateway_id := kv.2 }
  else if kv.1 = "name" then { d with name := kv.2 }
  else if kv.1 = "loc" then { d with loc := Option.some kv.2 }
  else if kv.1 = "tags" then { d with tags := Option.some kv.2 }
  else if kv.1 = "attributes" then { d with attributes := Option.some kv.2 }
  else d

/-- Payload of `set_properties`:
`{k: v for k, v in locals().items() if k != "self" and v}` — the five
parameters in declaration order, keyed by their Python parameter names,
keeping exactly the truthy ones. -/
def setPropertiesPayload (gateway_id name loc tags attributes : PyVal) :
    List (String × PyVal) :=
  List.filter (fun kv => pyTruthy kv.2)
    [("gateway_id", gateway_id), ("name", name), ("loc", loc),
      ("tags", tags), ("attributes", attributes)]

/-- Embeds `Device.set_properties`: sends `PUT self.url` with the filtered
payload and `expect=200`, and on success merges the payload into the
instance dict. -/
def Device.set_properties (d : Device)
    (gateway_id name loc tags attributes : PyVal) (resp : Response) :
    Request × Except PyErr Device :=
  let payload := setPropertiesPayload gateway_id name loc tags attributes
  let req : Request := ⟨Method.put, d.url, Option.some payload, 200⟩
  (req, (Client.check 200 resp).map (fun _ => payload.foldl applyProp d))

/-- Embeds `Device.add_component`: `if not cid: cid = str(uuid.uuid4())`
(the generated UUID string is the explicit `freshUuid` argument), then
`POST self.url + "/components"` with payload
`{"cid": cid, "name": name, "type": component_type}` and `expect=201`;
on success returns the response body. -/
def Device.add_component (d : Device) (name component_type cid : PyVal)
    (freshUuid : String) (resp : Response) :
    Request × Except PyErr (List (String × PyVal)) :=
  let cid := if pyTruthy cid then cid else PyVal.str freshUuid
  let req : Request := ⟨Method.post, d.url ++ "/components",
    Option.some [("cid", cid), ("name", name), ("type", component_type)], 201⟩
  (req, (Client.check 201 resp).map (fun _ => resp.body))

/-- Embeds `Device.delete_component`:
`DELETE "{}/components/{}".format(self.url, component_id)` with
`expect=204`. -/
def Device.delete_component (d : Device) (component_id : PyVal) (resp : Response) :
    Request × Except PyErr Unit :=
  (⟨Method.delete, d.url ++ "/components/" ++ pystr component_id, Option.none, 204⟩,
    Client.check 204 resp)

/-- Civil date (year, month, day) from days since 1970-01-01, for dates on
or after the epoch (standard era-based conversion). -/
def civilFromDays (z : Nat) : Nat × Nat × Nat :=
  let zz := z + 719468
  let era := zz / 146097
  let doe := zz % 146097
  let yoe := (doe - doe / 1460 + doe / 36524 - doe / 146096) / 365
  let y := yoe + era * 400
  let doy := doe - (365 * yoe + yoe / 4 - yoe / 100)
  let mp := (5 * doy + 2) / 153
  let d := doy - (153 * mp + 2) / 5 + 1
  let m := if mp < 10 then mp + 3 else mp - 9
  (if m ≤ 2 then y + 1 else y, m, d)

/-- UTC civil instant (year, month, day, hour, minute, second) denoted by a
count of seconds since the Unix epoch. -/
def utcOfSecs (s : Nat) : Nat × Nat × Nat × Nat × Nat × Nat :=
  let c := civilFromDays (s / 86400)
  let r := s % 86400
  (c.1, c.2.1, c.2.2, r / 3600, r % 3600 / 60, r % 60)

/-- Concrete client for witnesses. -/
def exClient : Client := ⟨"client0"⟩

/-- Concrete account for witnesses. -/
def exAccount : Account := ⟨"acc1", exClient, PyVal.str "code123"⟩

/-- Concrete device for witnesses, as `Device.init` builds it from
`exAccount`, id `dev1`, name `Dev`, status `created`, no gateway, no
domain, and a `datetime` of 0. -/
def exDevice : Device :=
  ⟨exAccount, exClient, PyVal.str "dev1", PyVal.str "Dev", PyVal.str "created",
    PyVal.none, PyVal.none, 0, "/accounts/acc1/devices/dev1",
    Option.none, Option.none, Option.none⟩

/-- Concrete device equal to `exDevice` on the identity triple but with
status `active` and a gateway and a later creation time, for equality
witnesses. -/
def exDeviceActive : Device :=
  ⟨exAccount, exClient, PyVal.str "dev1", PyVal.str "Dev", PyVal.str "active",
    PyVal.str "gw9", PyVal.none, 77, "/accounts/acc1/devices/dev1",
    Option.none, Option.none, Option.none⟩

/-- Concrete JSON dict for witnesses: has `deviceId` and `created` but no
`gatewayId`, `name`, `status` or `domainId` key. -/
def exJson : List (String × PyVal) :=
  [("deviceId", PyVal.str "d1"), ("created", PyVal.num 1000)]

theorem exDevice_init : Device.init exAccount (PyVal.str "dev1") (PyVal.str "Dev")
    (PyVal.str "created") PyVal.none PyVal.none (InitTime.datetime 0) =
    Except.ok exDevice := by
  simp [Device.init, normalizeCreated, exDevice, exAccount, exClient, pystr]

theorem applyProp_gw (d : Device) (v : PyVal) :
    applyProp d ("gateway_id", v) = { d with gateway_id := v } := by
  unfold applyProp
  dsimp only
  rw [if_pos rfl]

theorem applyProp_nm (d : Device) (v : PyVal) :
    applyProp d ("name", v) = { d with name := v } := by
  unfold applyProp
  dsimp only
  rw [if_neg (by decide), if_pos rfl]

theorem applyProp_loc (d : Device) (v : PyVal) :
    applyProp d ("loc", v) = { d with loc := Option.some v } := by
  unfold applyProp
  dsimp only
  rw [if_neg (by decide), if_neg (by decide), if_pos rfl]

theorem applyProp_tg (d : Device) (v : PyVal) :
    applyProp d ("tags", v) = { d with tags := Option.some v } := by
  unfold applyProp
  dsimp only
  rw [if_neg (by decide), if_neg (by decide), if_neg (by decide), if_pos rfl]

theorem applyProp_at (d : Device) (v : PyVal) :
    applyProp d ("attributes", v) = { d with attributes := Option.some v } := by
  unfold applyProp
  dsimp only
  rw [if_neg (by decide), if_neg (by decide), if_neg (by decide), if_neg (by decide),
    if_pos rfl]

/-- Characterization of every field of the device after the local
`__dict__.update` merge of the filtered payload of `set_properties`. -/
theorem foldl_payload_fields (d : Device) (g n l t a : PyVal) :
    ((setPropertiesPayload g n l t a).foldl applyProp d).gateway_id =
        (if pyTruthy g then g else d.gateway_id) ∧
      ((setPropertiesPayload g n l t a).foldl applyProp d).name =
        (if pyTruthy n then n else d.name) ∧
      ((setPropertiesPayload g n l t a).foldl applyProp d).loc =
        (if pyTruthy l then Option.some l else d.loc) ∧
      ((setPropertiesPayload g n l t a).foldl applyProp d).tags =
        (if pyTruthy t then Option.some t else d.tags) ∧
      ((setPropertiesPayload g n l t a).foldl applyProp d).attributes =
        (if pyTruthy a then Option.some a else d.attributes) ∧
      ((setPropertiesPayload g n l t a).foldl applyProp d).device_id = d.device_id ∧
      ((setPropertiesPayload g n l t a).foldl applyProp d).account = d.account ∧
      ((setPropertiesPayload g n l t a).foldl applyProp d).client = d.client ∧
      ((setPropertiesPayload g n l t a).foldl applyProp d).url = d.url ∧
      ((setPropertiesPayload g n l t a).foldl applyProp d).status = d.status ∧
      ((setPropertiesPayload g n l t a).foldl applyProp d).domain_id = d.domain_id ∧
      ((setPropertiesPayload g n l t a).foldl applyProp d).created_on = d.created_on := by
  cases hg : pyTruthy g <;> cases hn : pyTruthy n <;> cases hl : pyTruthy l <;>
    cases ht : pyTruthy t <;> cases ha : pyTruthy a <;>
      simp [setPropertiesPayload, List.filter_cons, hg, hn, hl, ht, ha,
        applyProp_gw, applyProp_nm, applyProp_loc, applyProp_tg, applyProp_at]

/-- C8: for every successfully constructed device the stored resource path
equals `/accounts/{accountId}/devices/{deviceId}`, computed once at
construction, and it is the base path of the delete, activation and
component operations. -/
theorem device_resource_path (a : Account) (i n s g dm : PyVal) (ct : InitTime)
    (d : Device) (h : Device.init a i n s g dm ct = Except.ok d) :
    d.url = "/accounts/" ++ a.account_id ++ "/devices/" ++ pystr i ∧
      ∀ (code cid nm ty : PyVal) (u : String) (resp : Response),
        (d.delete resp).1.path = d.url ∧
          (d.activate code resp).1.path = d.url ++ "/activation" ∧
          (d.set_properties g nm code cid ty resp).1.path = d.url ∧
          (d.add_component nm ty cid u resp).1.path = d.url ++ "/components" ∧
          (d.delete_component cid resp).1.path = d.url ++ "/components/" ++ pystr cid := by
  unfold Device.init at h
  cases hc : normalizeCreated ct with
  | error e => rw [hc] at h; exact absurd h (by simp)
  | ok tm =>
    rw [hc] at h
    injection h with h
    subst h
    exact ⟨rfl, fun code cid nm ty u resp =>
      ⟨rfl, rfl, rfl, rfl, rfl⟩⟩

/-- Witness for C8 at a concrete construction. -/
theorem device_resource_path_witness :
    exDevice.url = "/accounts/" ++ exAccount.account_id ++ "/devices/" ++
      pystr (PyVal.str "dev1") :=
  (device_resource_path exAccount (PyVal.str "dev1") (PyVal.str "Dev")
    (PyVal.str "created") PyVal.none PyVal.none (InitTime.datetime 0) exDevice
    exDevice_init).1

/-- C2: device equality is `NotImplemented` against non-devices, and
between devices holds exactly when the `(name, accountId, deviceId)`
triples match — status, gateway and timestamps are not consulted. -/
theorem device_eq_iff (d e : Device) (v : PyVal) :
    (d.eq (PyObj.device e) = EqResult.boolean true ↔
        (d.name = e.name ∧ d.account.account_id = e.account.account_id ∧
          d.device_id = e.device_id)) ∧
      d.eq (PyObj.obj v) = EqResult.notImplemented := by
  constructor
  · simp [Device.eq, accountEq, Bool.and_eq_true, and_assoc]
  · rfl

/-- Witness for C2: two concrete devices sharing the identity triple but
differing in status, gateway and creation time compare equal, and
comparison against a non-device value is `NotImplemented`. -/
theorem device_eq_iff_witness :
    exDevice.eq (PyObj.device exDeviceActive) = EqResult.boolean true ∧
      exDevice.eq (PyObj.obj (PyVal.num 3)) = EqResult.notImplemented :=
  ⟨(device_eq_iff exDevice exDeviceActive (PyVal.num 3)).1.mpr ⟨rfl, rfl, rfl⟩,
    (device_eq_iff exDevice exDeviceActive (PyVal.num 3)).2⟩

/-- C3: `delete` and `delete_component` succeed exactly on a 204 response;
any other status (200 included) yields `UnexpectedResponseError` carrying
the observed status and body. -/
theorem delete_requires_no_content (d : Device) (cid : PyVal) (resp : Response) :
    (resp.statusCode = 204 →
        (d.delete resp).2 = Except.ok () ∧
          (d.delete_component cid resp).2 = Except.ok ()) ∧
      (resp.statusCode ≠ 204 →
        (d.delete resp).2 =
            Except.error (PyErr.unexpectedResponse resp.statusCode resp.body) ∧
          (d.delete_component cid resp).2 =
            Except.error (PyErr.unexpectedResponse resp.statusCode resp.body)) := by
  constructor <;> intro h <;>
    simp [Device.delete, Device.delete_component, Client.check, h]

/-- Witness for C3: a 200 response to either delete raises
`UnexpectedResponseError 200`, and a 204 response succeeds. -/
theorem delete_requires_no_content_witness :
    ((exDevice.delete ⟨200, []⟩).2 =
        Except.error (PyErr.unexpectedResponse 200 []) ∧
      (exDevice.delete_component (PyVal.str "c1") ⟨200, []⟩).2 =
        Except.error (PyErr.unexpectedResponse 200 [])) ∧
      (exDevice.delete ⟨204, []⟩).2 = Except.ok () :=
  ⟨(delete_requires_no_content exDevice (PyVal.str "c1") ⟨200, []⟩).2 (by decide),
    ((delete_requires_no_content exDevice (PyVal.str "c1") ⟨204, []⟩).1 rfl).1⟩

theorem utc_1700000000 : utcOfSecs 1700000000 = (2023, 11, 14, 22, 13, 20) := by
  decide

/-- C4 counterexample: `from_json` on a JSON dict that lacks the `created`
key does not yield a device with an absent field — it raises the
`TypeError` coming from `None / 1e3` in the constructor. -/
theorem from_json_missing_created_raises :
    Device.from_json exAccount [("deviceId", PyVal.str "d1"), ("name", PyVal.str "n1")] =
      Except.error (PyErr.typeError "unsupported operand type for /") := by
  rfl

/-- C4 (amended): when the `created` key holds a number, `from_json`
succeeds and every missing key among `deviceId, name, status, gatewayId,
domainId` yields a `None` field; but when the `created` key is absent (its
`get` yields `None`), `from_json` fails with a `TypeError` instead. -/
theorem from_json_fields (a : Account) (jd : List (String × PyVal)) :
    (∀ q : ℚ, pyGet jd "created" = PyVal.num q →
        ∃ d, Device.from_json a jd = Except.ok d ∧
          d.device_id = pyGet jd "deviceId" ∧ d.name = pyGet jd "name" ∧
          d.status = pyGet jd "status" ∧ d.gateway_id = pyGet jd "gatewayId" ∧
          d.domain_id = pyGet jd "domainId" ∧ d.created_on = q / 1000) ∧
      (∀ k, jd.lookup k = Option.none → pyGet jd k = PyVal.none) ∧
      (pyGet jd "created" = PyVal.none →
        Device.from_json a jd =
          Except.error (PyErr.typeError "unsupported operand type for /")) := by
  refine ⟨fun q hq => ?_, fun k hk => ?_, fun hc => ?_⟩
  · unfold Device.from_json Device.init
    rw [hq]
    exact ⟨_, rfl, rfl, rfl, rfl, rfl, rfl, rfl⟩
  · unfold pyGet
    rw [hk]
  · unfold Device.from_json Device.init
    rw [hc]
    rfl

/-- Witness for the amended C4: on `exJson` (which lacks `gatewayId`),
`from_json` succeeds with a `None` gateway field. -/
theorem from_json_fields_witness :
    (∃ d, Device.from_json exAccount exJson = Except.ok d ∧
        d.device_id = pyGet exJson "deviceId" ∧ d.name = pyGet exJson "name" ∧
        d.status = pyGet exJson "status" ∧ d.gateway_id = pyGet exJson "gatewayId" ∧
        d.domain_id = pyGet exJson "domainId" ∧ d.created_on = 1000 / 1000) ∧
      pyGet exJson "gatewayId" = PyVal.none :=
  ⟨(from_json_fields exAccount exJson).1 1000 rfl,
    (from_json_fields exAccount exJson).2.1 "gatewayId" rfl⟩

/-- C5: a numeric `created_on` is normalized by dividing the
epoch-milliseconds by 1000 before date conversion, an already-parsed
`datetime` is stored unchanged, and the concrete epoch-ms value
1700000000000 normalizes to the instant 1700000000 s, which is the UTC
civil time 2023-11-14T22:13:20Z. -/
theorem created_on_ms_normalization :
    (∀ (a : Account) (i n s g dm : PyVal) (q : ℚ),
        (Device.init a i n s g dm (InitTime.val (PyVal.num q))).map Device.created_on =
          Except.ok (q / 1000)) ∧
      (∀ (a : Account) (i n s g dm : PyVal) (t : ℚ),
        (Device.init a i n s g dm (InitTime.datetime t)).map Device.created_on =
          Except.ok t) ∧
      (Device.init exAccount PyVal.none PyVal.none PyVal.none PyVal.none PyVal.none
          (InitTime.val (PyVal.num 1700000000000))).map Device.created_on =
        Except.ok 1700000000 ∧
      utcOfSecs 1700000000 = (2023, 11, 14, 22, 13, 20) := by
  refine ⟨fun a i n s g dm q => rfl, fun a i n s g dm t => rfl, ?_, utc_1700000000⟩
  show Except.ok ((1700000000000 : ℚ) / 1000) = Except.ok (1700000000 : ℚ)
  rw [show ((1700000000000 : ℚ) / 1000) = 1700000000 from by norm_num]

/-- C1: `set_properties` sends exactly the truthy-supplied parameters,
keyed by their parameter names, and on a 200 response merges the same
filtered payload into the local fields. -/
theorem set_properties_truthy_filter_and_merge (d : Device)
    (gateway_id name loc tags attributes : PyVal) (resp : Response)
    (h : resp.statusCode = 200) :
    (Device.set_properties d gateway_id name loc tags attributes resp).1.data =
        Option.some (setPropertiesPayload gateway_id name loc tags attributes) ∧
      (∀ kv, kv ∈ setPropertiesPayload gateway_id name loc tags attributes ↔
        (kv ∈ [("gateway_id", gateway_id), ("name", name), ("loc", loc),
            ("tags", tags), ("attributes", attributes)] ∧ pyTruthy kv.2 = true)) ∧
      ∃ d2, (Device.set_properties d gateway_id name loc tags attributes resp).2 =
          Except.ok d2 ∧
        d2.gateway_id = (if pyTruthy gateway_id then gateway_id else d.gateway_id) ∧
        d2.name = (if pyTruthy name then name else d.name) ∧
        d2.loc = (if pyTruthy loc then Option.some loc else d.loc) ∧
        d2.tags = (if pyTruthy tags then Option.some tags else d.tags) ∧
        d2.attributes =
          (if pyTruthy attributes then Option.some attributes else d.attributes) := by
  have hp := foldl_payload_fields d gateway_id name loc tags attributes
  refine ⟨rfl, fun kv => by unfold setPropertiesPayload; exact List.mem_filter, _, ?_,
    hp.1, hp.2.1, hp.2.2.1, hp.2.2.2.1, hp.2.2.2.2.1⟩
  show (Client.check 200 resp).map _ = _
  rw [show Client.check 200 resp = Except.ok () from by simp [Client.check, h]]
  rfl

/-- Witness for C1: with only `name="NewName"` supplied the payload is
exactly the `name` entry and the local name becomes `NewName`; with
`name=""` and `tags=None` nothing is sent. -/
theorem set_properties_truthy_filter_and_merge_witness :
    (Device.set_properties exDevice PyVal.none (PyVal.str "NewName") PyVal.none PyVal.none
        PyVal.none ⟨200, []⟩).1.data = Option.some [("name", PyVal.str "NewName")] ∧
      (∃ d2, (Device.set_properties exDevice PyVal.none (PyVal.str "NewName") PyVal.none
          PyVal.none PyVal.none ⟨200, []⟩).2 = Except.ok d2 ∧
        d2.name = PyVal.str "NewName") ∧
      (Device.set_properties exDevice PyVal.none (PyVal.str "") PyVal.none PyVal.none
        PyVal.none ⟨200, []⟩).1.data = Option.some [] := by
  have h1 := set_properties_truthy_filter_and_merge exDevice PyVal.none
    (PyVal.str "NewName") PyVal.none PyVal.none PyVal.none ⟨200, []⟩ rfl
  have h2 := set_properties_truthy_filter_and_merge exDevice PyVal.none (PyVal.str "")
    PyVal.none PyVal.none PyVal.none ⟨200, []⟩ rfl
  obtain ⟨d2, hok, _, hn, _⟩ := h1.2.2
  exact ⟨h1.1, ⟨d2, hok, by rw [hn]; rfl⟩, h2.1⟩

/-- C9: on a successful `set_properties`, every field that is not a key of
the filtered payload is unchanged: identity, account, client, url, status,
domain and creation time always, and each updatable field whenever its
argument was falsy. -/
theorem set_properties_frame (d : Device) (gateway_id name loc tags attributes : PyVal)
    (resp : Response) (h : resp.statusCode = 200) :
    ∃ d2, (Device.set_properties d gateway_id name loc tags attributes resp).2 =
        Except.ok d2 ∧
      d2.device_id = d.device_id ∧ d2.account = d.account ∧ d2.client = d.client ∧
      d2.url = d.url ∧ d2.status = d.status ∧ d2.domain_id = d.domain_id ∧
      d2.created_on = d.created_on ∧
      (pyTruthy gateway_id = false → d2.gateway_id = d.gateway_id) ∧
      (pyTruthy name = false → d2.name = d.name) ∧
      (pyTruthy loc = false → d2.loc = d.loc) ∧
      (pyTruthy tags = false → d2.tags = d.tags) ∧
      (pyTruthy attributes = false → d2.attributes = d.attributes) := by
  have hp := foldl_payload_fields d gateway_id name loc tags attributes
  refine ⟨_, ?_, hp.2.2.2.2.2.1, hp.2.2.2.2.2.2.1, hp.2.2.2.2.2.2.2.1,
    hp.2.2.2.2.2.2.2.2.1, hp.2.2.2.2.2.2.2.2.2.1, hp.2.2.2.2.2.2.2.2.2.2.1,
    hp.2.2.2.2.2.2.2.2.2.2.2, fun hf => by simp [hp.1, hf],
    fun hf => by simp [hp.2.1, hf], fun hf => by simp [hp.2.2.1, hf],
    fun hf => by simp [hp.2.2.2.1, hf], fun hf => by simp [hp.2.2.2.2.1, hf]⟩
  show (Client.check 200 resp).map _ = _
  rw [show Client.check 200 resp = Except.ok () from by simp [Client.check, h]]
  rfl

/-- Witness for C9 at a concrete call that only updates the gateway. -/
theorem set_properties_frame_witness :
    ∃ d2, (Device.set_properties exDevice (PyVal.str "gw") PyVal.none PyVal.none
        PyVal.none PyVal.none ⟨200, []⟩).2 = Except.ok d2 ∧
      d2.device_id = exDevice.device_id ∧ d2.status = exDevice.status ∧
      d2.created_on = exDevice.created_on := by
  obtain ⟨d2, hok, h1, _, _, _, h5, _, h7, _⟩ :=
    set_properties_frame exDevice (PyVal.str "gw") PyVal.none PyVal.none PyVal.none
      PyVal.none ⟨200, []⟩ rfl
  exact ⟨d2, hok, h1, h5, h7⟩

/-- C6: `activate` fetches the code from the account exactly when none is
supplied, sends the update to `url + "/activation"`, and on a 200 response
returns `response.json().get("deviceToken")` — `None`, not a failure, when
the field is absent. -/
theorem activate_code_fetch_and_token (d : Device) (resp : Response) :
    ((d.activate PyVal.none resp).1.data =
        Option.some [("activationCode", d.account.activationCode)]) ∧
      (∀ code, code ≠ PyVal.none →
        (d.activate code resp).1.data = Option.some [("activationCode", code)]) ∧
      (∀ code, (d.activate code resp).1.path = d.url ++ "/activation") ∧
      (resp.statusCode = 200 → ∀ code,
        (d.activate code resp).2 = Except.ok (pyGet resp.body "deviceToken")) ∧
      (resp.statusCode = 200 → resp.body.lookup "deviceToken" = Option.none → ∀ code,
        (d.activate code resp).2 = Except.ok PyVal.none) := by
  have hok : resp.statusCode = 200 → Client.check 200 resp = Except.ok () :=
    fun h => by simp [Client.check, h]
  refine ⟨rfl, fun code hc => ?_, fun code => rfl, fun h200 code => ?_,
    fun h200 hdt code => ?_⟩
  · cases code with
    | none => exact absurd rfl hc
    | num q => rfl
    | str s => rfl
    | list xs => rfl
    | dict kvs => rfl
  · show (Client.check 200 resp).map _ = _
    rw [hok h200]
    rfl
  · show (Client.check 200 resp).map _ = _
    rw [hok h200]
    show Except.ok (pyGet resp.body "deviceToken") = _
    unfold pyGet
    rw [hdt]

/-- Witness for C6: with no code supplied, the account code `code123` is
sent, and a 200 response with no `deviceToken` field returns `None`. -/
theorem activate_code_fetch_and_token_witness :
    (exDevice.activate PyVal.none ⟨200, []⟩).1.data =
        Option.some [("activationCode", PyVal.str "code123")] ∧
      (exDevice.activate PyVal.none ⟨200, []⟩).2 = Except.ok PyVal.none := by
  have h := activate_code_fetch_and_token exDevice ⟨200, []⟩
  exact ⟨h.1, h.2.2.2.2 rfl rfl PyVal.none⟩

/-- C7: the payloads as actually sent — activation sends
`activationCode`, component creation sends `cid`, `name`, `type`, but the
property update keys the gateway entry by the Python parameter name
`gateway_id`, not by the REST field name `gatewayId` that `from_json`
reads from the server. -/
theorem payload_key_names :
    (Device.activate exDevice (PyVal.str "c0") ⟨200, []⟩).1.data =
        Option.some [("activationCode", PyVal.str "c0")] ∧
      (Device.add_component exDevice (PyVal.str "temp") (PyVal.str "sensor")
          (PyVal.str "cid0") "u0" ⟨201, []⟩).1.data =
        Option.some [("cid", PyVal.str "cid0"), ("name", PyVal.str "temp"),
          ("type", PyVal.str "sensor")] ∧
      (Device.set_properties exDevice (PyVal.str "gw1") PyVal.none PyVal.none PyVal.none
          PyVal.none ⟨200, []⟩).1.data =
        Option.some [("gateway_id", PyVal.str "gw1")] ∧
      (setPropertiesPayload (PyVal.str "gw1") PyVal.none PyVal.none PyVal.none
          PyVal.none).lookup "gatewayId" = Option.none := by
  exact ⟨rfl, rfl, rfl, rfl⟩

/-- C10: `add_component` replaces every falsy `cid` — the empty string as
well as `None` — by the generated UUID, keeps a truthy `cid`, while
`activate` sends an empty-string code verbatim (it fetches only on
`None`). -/
theorem add_component_uuid_on_falsy_cid (d : Device) (name ty : PyVal) (u : String)
    (resp : Response) :
    ((d.add_component name ty (PyVal.str "") u resp).1.data =
        Option.some [("cid", PyVal.str u), ("name", name), ("type", ty)]) ∧
      ((d.add_component name ty PyVal.none u resp).1.data =
        Option.some [("cid", PyVal.str u), ("name", name), ("type", ty)]) ∧
      (∀ cid, pyTruthy cid = true →
        (d.add_component name ty cid u resp).1.data =
          Option.some [("cid", cid), ("name", name), ("type", ty)]) ∧
      ((d.activate (PyVal.str "") resp).1.data =
        Option.some [("activationCode", PyVal.str "")]) := by
  refine ⟨rfl, rfl, fun cid hc => ?_, rfl⟩
  simp [Device.add_component, hc]

/-- Witness for C10: an empty-string `cid` is replaced by the generated
UUID, a non-empty one is kept. -/
theorem add_component_uuid_on_falsy_cid_witness :
    (exDevice.add_component (PyVal.str "temp") (PyVal.str "sensor") (PyVal.str "")
        "fresh-uuid" ⟨201, []⟩).1.data =
      Option.some [("cid", PyVal.str "fresh-uuid"), ("name", PyVal.str "temp"),
        ("type", PyVal.str "sensor")] ∧
    (exDevice.add_component (PyVal.str "temp") (PyVal.str "sensor") (PyVal.str "cid9")
        "fresh-uuid" ⟨201, []⟩).1.data =
      Option.some [("cid", PyVal.str "cid9"), ("name", PyVal.str "temp"),
        ("type", PyVal.str "sensor")] := by
  have h := add_component_uuid_on_falsy_cid exDevice (PyVal.str "temp")
    (PyVal.str "sensor") "fresh-uuid" ⟨201, []⟩
  exact ⟨h.1, h.2.2.1 (PyVal.str "cid9") rfl⟩
